import Mathlib

/-!
Verification of the Browser Control Bridge (`bridge_script.js`).

This file gives a shallow embedding of the bridge's session registry, JSON-RPC
dispatcher and interactive-element detection engine, and proves the specified
properties about them.

Modelling conventions:
* JS `Map` objects are embedded as association lists (`mapGet`/`mapSet`/`mapDelete`).
* JS numbers appearing in scores and geometry are embedded as exact rationals;
  boolean DOM facts (attribute presence, computed-style strings) are carried in
  an `Element` record that represents one candidate DOM element together with
  its computed style, as read by the in-page callbacks.
* Calls into the external Playwright capability (`chromium.launch`, `page.goto`,
  ...) are oracle-modelled by an `ExtBehavior` record giving the outcome of each
  primitive, since the browser engine is outside this subsystem's boundary.
  A JS `throw`/rejection is an `Except.error` carrying the fault message.
* The template string `` `browser_${idCounter++}` `` renders the counter in
  decimal; this is embedded as `decRepr`, whose injectivity is proved below.
-/

namespace Bridge

/-! ### Association-list model of JS `Map` -/

/-- Lookup in a JS `Map` (`m.get(k)`), embedded over an association list. -/
def mapGet (m : List (String × α)) (k : String) : Option α :=
  match m with
  | [] => none
  | (k2, v) :: rest => if k2 = k then some v else mapGet rest k

/-- Insertion/replacement in a JS `Map` (`m.set(k, v)`). -/
def mapSet (m : List (String × α)) (k : String) (v : α) : List (String × α) :=
  match m with
  | [] => [(k, v)]
  | (k2, v2) :: rest => if k2 = k then (k, v) :: rest else (k2, v2) :: mapSet rest k v

/-- Deletion from a JS `Map` (`m.delete(k)`). -/
def mapDelete (m : List (String × α)) (k : String) : List (String × α) :=
  match m with
  | [] => []
  | (k2, v2) :: rest => if k2 = k then rest else (k2, v2) :: mapDelete rest k

theorem mapGet_mapDelete_ne (m : List (String × α)) (k k2 : String) (h : k2 ≠ k) :
    mapGet (mapDelete m k) k2 = mapGet m k2 := by
  induction m with
  | nil => rfl
  | cons hd tl ih =>
    obtain ⟨k3, v⟩ := hd
    by_cases h3 : k3 = k
    · simp only [mapDelete, if_pos h3, mapGet]
      rw [if_neg (fun h4 : k3 = k2 => h (h4.symm.trans h3))]
    · simp only [mapDelete, if_neg h3, mapGet]
      by_cases h4 : k3 = k2
      · rw [if_pos h4, if_pos h4]
      · rw [if_neg h4, if_neg h4]
        exact ih

/-! ### Decimal rendering of the shared id counter

`launchBrowser`/`connectBrowser`/`newPage` build handles with a JS template
string, which renders the counter value in decimal. -/

/-- Fuel-indexed decimal digit list, most significant first.  Any fuel of at
least the value itself suffices, so the recursion is structural. -/
def decDigitsF : Nat → Nat → List Char
  | 0, n => [Nat.digitChar n]
  | fuel + 1, n =>
    if n < 10 then [Nat.digitChar n]
    else decDigitsF fuel (n / 10) ++ [Nat.digitChar (n % 10)]

/-- Decimal digit list of a natural number, most significant first. -/
def decDigits (n : Nat) : List Char := decDigitsF n n

theorem decDigitsF_congr :
    ∀ f1 f2 n, n ≤ f1 → n ≤ f2 → decDigitsF f1 n = decDigitsF f2 n := by
  intro f1
  induction f1 with
  | zero =>
    intro f2 n h1 h2
    have h0 : n = 0 := by omega
    subst h0
    cases f2 with
    | zero => rfl
    | succ g => simp [decDigitsF]
  | succ f ih =>
    intro f2 n h1 h2
    cases f2 with
    | zero =>
      have h0 : n = 0 := by omega
      subst h0
      simp [decDigitsF]
    | succ g =>
      simp only [decDigitsF]
      by_cases hn : n < 10
      · rw [if_pos hn, if_pos hn]
      · rw [if_neg hn, if_neg hn]
        have hlt : n / 10 < n := Nat.div_lt_self (by omega) (by norm_num)
        rw [ih g (n / 10) (by omega) (by omega)]

theorem decDigits_eq (n : Nat) :
    decDigits n = if n < 10 then [Nat.digitChar n]
      else decDigits (n / 10) ++ [Nat.digitChar (n % 10)] := by
  unfold decDigits
  cases n with
  | zero => simp [decDigitsF]
  | succ m =>
    simp only [decDigitsF]
    by_cases hn : m + 1 < 10
    · rw [if_pos hn, if_pos hn]
    · rw [if_neg hn, if_neg hn]
      have hlt : (m + 1) / 10 < m + 1 := Nat.div_lt_self (by omega) (by norm_num)
      rw [decDigitsF_congr m ((m + 1) / 10) ((m + 1) / 10) (by omega) le_rfl]

theorem decDigits_ne_nil (n : Nat) : decDigits n ≠ [] := by
  rw [decDigits_eq]
  by_cases h : n < 10 <;> simp [h]

theorem digitChar_inj : ∀ a, a < 10 → ∀ b, b < 10 →
    Nat.digitChar a = Nat.digitChar b → a = b := by decide

theorem decDigits_inj (m : Nat) : ∀ n, decDigits m = decDigits n → m = n := by
  induction m using Nat.strong_induction_on with
  | _ m ih =>
    intro n h
    by_cases hm : m < 10 <;> by_cases hn : n < 10
    · rw [decDigits_eq m, decDigits_eq n, if_pos hm, if_pos hn] at h
      exact digitChar_inj m hm n hn (List.head_eq_of_cons_eq h)
    · rw [decDigits_eq m, decDigits_eq n, if_pos hm, if_neg hn] at h
      have hlen := congrArg List.length h
      simp only [List.length_append, List.length_cons, List.length_nil] at hlen
      have h0 : decDigits (n / 10) = [] := List.length_eq_zero.mp (by omega)
      exact absurd h0 (decDigits_ne_nil (n / 10))
    · rw [decDigits_eq m, decDigits_eq n, if_neg hm, if_pos hn] at h
      have hlen := congrArg List.length h
      simp only [List.length_append, List.length_cons, List.length_nil] at hlen
      have h0 : decDigits (m / 10) = [] := List.length_eq_zero.mp (by omega)
      exact absurd h0 (decDigits_ne_nil (m / 10))
    · rw [decDigits_eq m, decDigits_eq n, if_neg hm, if_neg hn] at h
      have h2 := List.append_inj' h rfl
      have hdiv : m / 10 = n / 10 :=
        ih (m / 10) (Nat.div_lt_self (by omega) (by norm_num)) (n / 10) h2.1
      have hmod : m % 10 = n % 10 := by
        have hc : Nat.digitChar (m % 10) = Nat.digitChar (n % 10) := by
          simpa using h2.2
        exact digitChar_inj (m % 10) (Nat.mod_lt m (by norm_num)) (n % 10)
          (Nat.mod_lt n (by norm_num)) hc
      omega

/-- Decimal string of a natural number, as produced by a JS template string. -/
def decRepr (n : Nat) : String := String.mk (decDigits n)

theorem decRepr_inj (m n : Nat) (h : decRepr m = decRepr n) : m = n := by
  apply decDigits_inj
  have h2 := congrArg String.data h
  simpa [decRepr] using h2

theorem browser_handle_inj (m n : Nat)
    (h : "browser_" ++ decRepr m = "browser_" ++ decRepr n) : m = n := by
  apply decRepr_inj
  have h2 := congrArg String.data h
  simp only [String.data_append] at h2
  exact congrArg String.mk (List.append_cancel_left h2)

theorem page_handle_inj (m n : Nat)
    (h : "page_" ++ decRepr m = "page_" ++ decRepr n) : m = n := by
  apply decRepr_inj
  have h2 := congrArg String.data h
  simp only [String.data_append] at h2
  exact congrArg String.mk (List.append_cancel_left h2)

theorem browser_handle_ne_page_handle (m n : Nat) :
    "browser_" ++ decRepr m ≠ "page_" ++ decRepr n := by
  intro h
  have h2 := congrArg String.data h
  simp only [String.data_append, List.cons_append, List.nil_append] at h2
  exact absurd (List.head_eq_of_cons_eq h2) (by decide)

/-! ### DOM element model

One candidate element of the live page, as seen by the callback evaluated
inside `getDomTree`: the tag, the attributes the callback reads, and the
computed style.  `tabindexAttr` is the `tabindex` attribute: `none` when the
attribute is absent, `some none` when present but `parseInt` yields `NaN`,
`some (some i)` when it parses to `i`. -/

structure Rect where
  x : ℚ
  y : ℚ
  width : ℚ
  height : ℚ
  deriving DecidableEq, Repr

/-- `rect.top` of a `DOMRect` with non-negative height. -/
def Rect.top (r : Rect) : ℚ := r.y

/-- `rect.bottom` of a `DOMRect` with non-negative height. -/
def Rect.bottom (r : Rect) : ℚ := r.y + r.height

/-- `rect.left` of a `DOMRect` with non-negative width. -/
def Rect.leftEdge (r : Rect) : ℚ := r.x

/-- `rect.right` of a `DOMRect` with non-negative width. -/
def Rect.rightEdge (r : Rect) : ℚ := r.x + r.width

structure Element where
  tagName : String
  role : Option String
  cursor : String
  hasHref : Bool
  hasOnclick : Bool
  hasOnmousedown : Bool
  hasOnmouseup : Bool
  hasOntouchstart : Bool
  tabindexAttr : Option (Option Int)
  typeAttr : Option String
  isContentEditable : Bool
  rect : Rect
  display : String
  visibility : String
  opacity : String
  tabIndexProp : Int
  deriving DecidableEq, Repr

/-- Window dimensions read by the in-page callback
(`window.innerWidth` / `window.innerHeight`). -/
structure WinDims where
  innerWidth : ℚ
  innerHeight : ℚ
  deriving DecidableEq, Repr

/-- Character-wise lowercasing (the JS `toLowerCase()` call on tag names),
stated over the character list so the kernel can evaluate it. -/
def toLowerStr (s : String) : String := String.mk (s.data.map Char.toLower)

/-! ### Clickability scoring (`calculateClickability`) -/

def interactiveTags : List String :=
  ["a", "button", "input", "select", "textarea", "option", "label"]

def clickableRoles : List String :=
  ["button", "link", "checkbox", "radio", "menuitem", "tab", "option", "switch"]

def eventAttrs : List String :=
  ["onclick", "onmousedown", "onmouseup", "ontouchstart"]

def clickableInputTypes : List String :=
  ["button", "submit", "reset", "checkbox", "radio", "file"]

/-- `el.hasAttribute(a)` for the four inline event-handler attributes. -/
def hasEventAttr (el : Element) (a : String) : Bool :=
  if a = "onclick" then el.hasOnclick
  else if a = "onmousedown" then el.hasOnmousedown
  else if a = "onmouseup" then el.hasOnmouseup
  else if a = "ontouchstart" then el.hasOntouchstart
  else false

structure ClickResult where
  score : ℚ
  reasons : List String
  deriving DecidableEq, Repr

/-- The 8-layer clickability heuristic of `bridge_script.js`.  Each layer adds
its weight at most once (the event-handler loop breaks at the first match),
and the final score is capped with `Math.min(score, 1.0)`. -/
def calculateClickability (el : Element) : ClickResult :=
  let tag := toLowerStr el.tagName
  let p0 : ℚ × List String := (0, [])
  let p1 : ℚ × List String := if interactiveTags.contains tag
    then (p0.1 + 0.3, p0.2 ++ ["native_tag:" ++ tag]) else p0
  let p2 : ℚ × List String := match el.role with
    | some role => if clickableRoles.contains role
        then (p1.1 + 0.2, p1.2 ++ ["aria_role:" ++ role]) else p1
    | none => p1
  let p3 : ℚ × List String := if el.cursor = "pointer"
    then (p2.1 + 0.15, p2.2 ++ ["cursor_pointer"]) else p2
  let p4 : ℚ × List String :=
    if el.hasHref then (p3.1 + 0.2, p3.2 ++ ["has_href"]) else p3
  let p5 : ℚ × List String := match eventAttrs.find? (fun a => hasEventAttr el a) with
    | some a => (p4.1 + 0.15, p4.2 ++ ["event:" ++ a])
    | none => p4
  let p6 : ℚ × List String := match el.tabindexAttr with
    | some (some n) => if 0 ≤ n then (p5.1 + 0.1, p5.2 ++ ["tabindex"]) else p5
    | _ => p5
  let p7 : ℚ × List String := if tag = "input" then
      let ty := el.typeAttr.getD "text"
      if clickableInputTypes.contains ty
        then (p6.1 + 0.15, p6.2 ++ ["input_type:" ++ ty]) else p6
    else p6
  let p8 : ℚ × List String := if el.isContentEditable
    then (p7.1 + 0.2, p7.2 ++ ["contenteditable"]) else p7
  { score := min p8.1 1, reasons := p8.2 }

/-- The signal vector of an element: which of the eight scoring layers fire. -/
structure Signals where
  nativeTag : Bool
  ariaRole : Bool
  cursorPointer : Bool
  href : Bool
  eventHandler : Bool
  tabindexNonneg : Bool
  clickableInput : Bool
  contentEditable : Bool
  deriving DecidableEq, Repr

/-- Reads the firing signals off an element (same conditions as the layers of
`calculateClickability`). -/
def signalsOf (el : Element) : Signals :=
  let tag := toLowerStr el.tagName
  { nativeTag := interactiveTags.contains tag
    ariaRole := match el.role with
      | some role => clickableRoles.contains role
      | none => false
    cursorPointer := decide (el.cursor = "pointer")
    href := el.hasHref
    eventHandler := (eventAttrs.find? (fun a => hasEventAttr el a)).isSome
    tabindexNonneg := match el.tabindexAttr with
      | some (some n) => decide (0 ≤ n)
      | _ => false
    clickableInput := decide (tag = "input")
      && clickableInputTypes.contains (el.typeAttr.getD "text")
    contentEditable := el.isContentEditable }

/-- The layer weights, summed over the firing signals. -/
def signalWeightSum (s : Signals) : ℚ :=
  (if s.nativeTag then (0.3 : ℚ) else 0) + (if s.ariaRole then 0.2 else 0)
    + (if s.cursorPointer then 0.15 else 0) + (if s.href then 0.2 else 0)
    + (if s.eventHandler then 0.15 else 0) + (if s.tabindexNonneg then 0.1 else 0)
    + (if s.clickableInput then 0.15 else 0) + (if s.contentEditable then 0.2 else 0)

/-- Pointwise order on signal vectors: every signal firing in `s` fires in `t`. -/
def signalsLe (s t : Signals) : Prop :=
  (s.nativeTag = true → t.nativeTag = true)
    ∧ (s.ariaRole = true → t.ariaRole = true)
    ∧ (s.cursorPointer = true → t.cursorPointer = true)
    ∧ (s.href = true → t.href = true)
    ∧ (s.eventHandler = true → t.eventHandler = true)
    ∧ (s.tabindexNonneg = true → t.tabindexNonneg = true)
    ∧ (s.clickableInput = true → t.clickableInput = true)
    ∧ (s.contentEditable = true → t.contentEditable = true)

instance (s t : Signals) : Decidable (signalsLe s t) := by
  unfold signalsLe
  infer_instance

theorem pair_step_fst (c : Prop) [Decidable c] (p : ℚ × List String) (w : ℚ)
    (r : List String) :
    (if c then (p.1 + w, r) else p).1 = p.1 + (if c then w else 0) := by
  split <;> simp

theorem pair_step_fst_s (c : Prop) [Decidable c] (s : ℚ) (l : List String) (w : ℚ)
    (r : List String) :
    (if c then (s + w, r) else (s, l)).1 = s + (if c then w else 0) := by
  split <;> simp

theorem input_step_fst (a : Prop) [Decidable a] (cb : Bool) (p : ℚ × List String)
    (w : ℚ) (r : List String) :
    (if a then (if cb then (p.1 + w, r) else p) else p).1
      = p.1 + (if (decide a && cb) = true then w else 0) := by
  by_cases h : a
  · cases cb <;> simp [h]
  · simp [h]

theorem input_step_fst_s (a : Prop) [Decidable a] (cb : Bool) (s : ℚ)
    (l : List String) (w : ℚ) (r : List String) :
    (if a then (if cb then (s + w, r) else (s, l)) else (s, l)).1
      = s + (if (decide a && cb) = true then w else 0) := by
  by_cases h : a
  · cases cb <;> simp [h]
  · simp [h]

theorem calculateClickability_score_eq (el : Element) :
    (calculateClickability el).score = min (signalWeightSum (signalsOf el)) 1 := by
  rcases hrole : el.role with _ | r <;>
    rcases hev : eventAttrs.find? (fun a => hasEventAttr el a) with _ | a <;>
      rcases hti : el.tabindexAttr with _ | oi
  all_goals try rcases oi with _ | i
  all_goals
    simp only [calculateClickability, signalsOf, signalWeightSum, hrole, hev, hti,
      decide_eq_true_eq, Option.isSome_some, Option.isSome_none,
      Bool.false_eq_true, eq_self_iff_true, if_true, if_false]
  all_goals rw [pair_step_fst]
  all_goals repeat first
    | rw [input_step_fst]
    | rw [input_step_fst_s]
    | rw [pair_step_fst]
    | rw [pair_step_fst_s]
  all_goals congr 1
  all_goals ring

theorem addIf_mono (a b : Bool) (w : ℚ) (hw : 0 ≤ w) (h : a = true → b = true) :
    (if a then w else 0) ≤ (if b then w else 0) := by
  cases a <;> cases b <;> simp_all

theorem signalWeightSum_mono (s t : Signals) (h : signalsLe s t) :
    signalWeightSum s ≤ signalWeightSum t := by
  obtain ⟨h1, h2, h3, h4, h5, h6, h7, h8⟩ := h
  unfold signalWeightSum
  have w1 := addIf_mono s.nativeTag t.nativeTag 0.3 (by norm_num) h1
  have w2 := addIf_mono s.ariaRole t.ariaRole 0.2 (by norm_num) h2
  have w3 := addIf_mono s.cursorPointer t.cursorPointer 0.15 (by norm_num) h3
  have w4 := addIf_mono s.href t.href 0.2 (by norm_num) h4
  have w5 := addIf_mono s.eventHandler t.eventHandler 0.15 (by norm_num) h5
  have w6 := addIf_mono s.tabindexNonneg t.tabindexNonneg 0.1 (by norm_num) h6
  have w7 := addIf_mono s.clickableInput t.clickableInput 0.15 (by norm_num) h7
  have w8 := addIf_mono s.contentEditable t.contentEditable 0.2 (by norm_num) h8
  gcongr

/-! ### Element detection (`getElementInfo` and the candidate loop)

The embedded `NodeInfo` keeps every field of the emitted node object that a
verified property refers to; the purely descriptive identity fields
(`attributes`, `text_content`, `xpath`, `css_selector`, `computed_styles`)
are not modelled, as no property below mentions them. -/

structure NodeInfo where
  id : String
  backend_node_id : Nat
  tag_name : String
  bounding_box : Rect
  is_visible : Bool
  is_in_viewport : Bool
  clickability_score : ℚ
  clickability_reasons : List String
  paint_order : Nat
  is_interactive : Bool
  is_focusable : Bool
  parent_id : Option String
  children : List String
  deriving DecidableEq, Repr

/-- The per-element part of the in-page callback: geometry, the visibility
check, the viewport check, and the score-derived fields.  `nodeId` is the
value of the callback's counter when the element is processed; the source
renders `id` from it and then increments it (so `backend_node_id` sees the
incremented value). -/
def getElementInfo (win : WinDims) (nodeId : Nat) (el : Element) : NodeInfo :=
  let isVisible := decide (el.rect.width > 0) && decide (el.rect.height > 0)
    && decide (el.visibility ≠ "hidden") && decide (el.display ≠ "none")
    && decide (el.opacity ≠ "0")
  let isInViewport := decide (el.rect.top < win.innerHeight)
    && decide (el.rect.bottom > 0) && decide (el.rect.leftEdge < win.innerWidth)
    && decide (el.rect.rightEdge > 0)
  let cr := calculateClickability el
  { id := "node_" ++ decRepr nodeId
    backend_node_id := nodeId + 1
    tag_name := toLowerStr el.tagName
    bounding_box := el.rect
    is_visible := isVisible
    is_in_viewport := isInViewport
    clickability_score := cr.score
    clickability_reasons := cr.reasons
    paint_order := 0
    is_interactive := decide (cr.score > 0.3)
    is_focusable := decide (el.tabIndexProp ≥ 0)
    parent_id := none
    children := [] }

/-- The collection loop of the in-page callback: every candidate element is
passed to `getElementInfo` (which consumes a node id), and only elements whose
info is visible are pushed onto the results. -/
def collectNodes (win : WinDims) : Nat → List Element → List NodeInfo
  | _, [] => []
  | nodeId, el :: rest =>
    let info := getElementInfo win nodeId el
    if info.is_visible then info :: collectNodes win (nodeId + 1) rest
    else collectNodes win (nodeId + 1) rest

structure ViewportInfo where
  width : ℚ
  height : ℚ
  device_pixel_ratio : ℚ
  scroll_x : ℚ
  scroll_y : ℚ
  deriving DecidableEq, Repr

structure DomSnapshot where
  roots : List String
  nodes : List (String × NodeInfo)
  viewport : ViewportInfo
  timestamp : Nat
  url : String
  title : String
  deriving DecidableEq, Repr

/-! ### Session registry, protocol values, and the external capability -/

/-- A registered page: the page and context capabilities live outside this
subsystem; the registry entry's own data is the owning browser handle. -/
structure PageEntry where
  browserId : String
  deriving DecidableEq, Repr

/-- The mutable state of the bridge process: the two registry maps and the
shared handle counter.  Browser capability objects are external, so a browser
entry carries no data beyond its presence. -/
structure State where
  browsers : List (String × Unit)
  pages : List (String × PageEntry)
  idCounter : Nat
  deriving DecidableEq, Repr

/-- The initial state of the bridge process (`idCounter` starts at 1). -/
def initialState : State := { browsers := [], pages := [], idCounter := 1 }

/-- A JSON value carried in a response `result`.  Payloads produced by the
external capability and passed through unmodified are embedded as the oracle
hands them over. -/
inductive Value where
  | null
  | str (s : String)
  | snap (d : DomSnapshot)
  deriving DecidableEq, Repr

/-- Scroll offsets and pixel ratio read inside the page by `getDomTree`
(field `dpr` embeds `devicePixelRatio`). -/
structure ScrollInfo where
  x : ℚ
  y : ℚ
  dpr : ℚ
  deriving DecidableEq, Repr

/-- Oracle for the external browser capability: the outcome of each primitive
the bridge can invoke during one request.  `Except.error m` models a rejected
promise / thrown error with message `m`. -/
structure ExtBehavior where
  launch : Except String Unit
  connectOverCDP : Except String Unit
  browserClose : Except String Unit
  newContext : Except String Unit
  contextNewPage : Except String Unit
  goto : Except String Unit
  mouseClick : Except String Unit
  pageClick : Except String Unit
  keyboardType : Except String Unit
  fillField : Except String Unit
  keyboardPress : Except String Unit
  screenshotData : Except String String
  content : Except String String
  pageUrl : String
  pageTitle : Except String String
  evalResult : Except String Value
  waitForSel : Except String Unit
  pageClose : Except String Unit
  contextClose : Except String Unit
  goBackCall : Except String Unit
  goForwardCall : Except String Unit
  reloadCall : Except String Unit
  scrollEval : Except String Unit
  viewportSize : Option (ℚ × ℚ)
  scrollInfo : Except String ScrollInfo
  domElements : Except String (List Element)
  winDims : WinDims
  now : Nat
  elementAtResult : Except String Value

/-- An oracle in which every external call succeeds with a trivial payload. -/
def extOk : ExtBehavior :=
  { launch := .ok (), connectOverCDP := .ok (), browserClose := .ok ()
    newContext := .ok (), contextNewPage := .ok (), goto := .ok ()
    mouseClick := .ok (), pageClick := .ok (), keyboardType := .ok ()
    fillField := .ok (), keyboardPress := .ok (), screenshotData := .ok ""
    content := .ok "", pageUrl := "", pageTitle := .ok "", evalResult := .ok .null
    waitForSel := .ok (), pageClose := .ok (), contextClose := .ok ()
    goBackCall := .ok (), goForwardCall := .ok (), reloadCall := .ok ()
    scrollEval := .ok (), viewportSize := some (1280, 720)
    scrollInfo := .ok { x := 0, y := 0, dpr := 1 }, domElements := .ok []
    winDims := { innerWidth := 1280, innerHeight := 720 }, now := 0
    elementAtResult := .ok .null }

/-- Request parameters.  Only the handle-valued fields participate in any
verified property; the remaining method-specific fields (urls, selectors,
text, coordinates, options) are consumed by the external capability, whose
outcome the oracle already models, so they are not carried here. -/
structure Params where
  browserId : String
  pageId : String
  endpoint : String
  deriving DecidableEq, Repr

/-- A parsed request line `{id, method, params}`. -/
structure Request where
  id : Int
  method : String
  params : Params
  deriving DecidableEq, Repr

structure ErrorObj where
  message : String
  code : Int
  deriving DecidableEq, Repr

inductive Outcome where
  | result (v : Value)
  | error (e : ErrorObj)
  deriving DecidableEq, Repr

/-- One response line: `{id, result}` or `{id, error: {message, code}}`. -/
structure Response where
  id : Int
  outcome : Outcome
  deriving DecidableEq, Repr

/-! ### Operations

Each operation returns `Except.error msg` where the source throws, and
`Except.ok (newState, result)` otherwise; in the source every registry
mutation happens after the last awaited external call of the operation, so an
error leaves the state exactly as it was. -/

def launchBrowser (ext : ExtBehavior) (st : State) (_p : Params) :
    Except String (State × Value) :=
  match ext.launch with
  | .error e => .error e
  | .ok _ =>
    let browserId := "browser_" ++ decRepr st.idCounter
    .ok ({ st with
            idCounter := st.idCounter + 1,
            browsers := mapSet st.browsers browserId () }, .str browserId)

def connectBrowser (ext : ExtBehavior) (st : State) (_p : Params) :
    Except String (State × Value) :=
  match ext.connectOverCDP with
  | .error e => .error e
  | .ok _ =>
    let browserId := "browser_" ++ decRepr st.idCounter
    .ok ({ st with
            idCounter := st.idCounter + 1,
            browsers := mapSet st.browsers browserId () }, .str browserId)

def closeBrowser (ext : ExtBehavior) (st : State) (p : Params) :
    Except String (State × Value) :=
  match mapGet st.browsers p.browserId with
  | some _ =>
    match ext.browserClose with
    | .error e => .error e
    | .ok _ => .ok ({ st with browsers := mapDelete st.browsers p.browserId }, .null)
  | none => .ok (st, .null)

def newPage (ext : ExtBehavior) (st : State) (p : Params) :
    Except String (State × Value) :=
  match mapGet st.browsers p.browserId with
  | none => .error ("Browser not found: " ++ p.browserId)
  | some _ =>
    match ext.newContext with
    | .error e => .error e
    | .ok _ =>
      match ext.contextNewPage with
      | .error e => .error e
      | .ok _ =>
        let pageId := "page_" ++ decRepr st.idCounter
        .ok ({ st with
                idCounter := st.idCounter + 1,
                pages := mapSet st.pages pageId { browserId := p.browserId } },
          .str pageId)

def navigate (ext : ExtBehavior) (st : State) (p : Params) :
    Except String (State × Value) :=
  match mapGet st.pages p.pageId with
  | none => .error ("Page not found: " ++ p.pageId)
  | some _ =>
    match ext.goto with
    | .error e => .error e
    | .ok _ => .ok (st, .null)

def click (ext : ExtBehavior) (st : State) (p : Params) :
    Except String (State × Value) :=
  match mapGet st.pages p.pageId with
  | none => .error ("Page not found: " ++ p.pageId)
  | some _ =>
    match ext.mouseClick with
    | .error e => .error e
    | .ok _ => .ok (st, .null)

def clickSelector (ext : ExtBehavior) (st : State) (p : Params) :
    Except String (State × Value) :=
  match mapGet st.pages p.pageId with
  | none => .error ("Page not found: " ++ p.pageId)
  | some _ =>
    match ext.pageClick with
    | .error e => .error e
    | .ok _ => .ok (st, .null)

def typeText (ext : ExtBehavior) (st : State) (p : Params) :
    Except String (State × Value) :=
  match mapGet st.pages p.pageId with
  | none => .error ("Page not found: " ++ p.pageId)
  | some _ =>
    match ext.keyboardType with
    | .error e => .error e
    | .ok _ => .ok (st, .null)

def fill (ext : ExtBehavior) (st : State) (p : Params) :
    Except String (State × Value) :=
  match mapGet st.pages p.pageId with
  | none => .error ("Page not found: " ++ p.pageId)
  | some _ =>
    match ext.fillField with
    | .error e => .error e
    | .ok _ => .ok (st, .null)

def pressKey (ext : ExtBehavior) (st : State) (p : Params) :
    Except String (State × Value) :=
  match mapGet st.pages p.pageId with
  | none => .error ("Page not found: " ++ p.pageId)
  | some _ =>
    match ext.keyboardPress with
    | .error e => .error e
    | .ok _ => .ok (st, .null)

def screenshot (ext : ExtBehavior) (st : State) (p : Params) :
    Except String (State × Value) :=
  match mapGet st.pages p.pageId with
  | none => .error ("Page not found: " ++ p.pageId)
  | some _ =>
    match ext.screenshotData with
    | .error e => .error e
    | .ok s => .ok (st, .str s)

def getContent (ext : ExtBehavior) (st : State) (p : Params) :
    Except String (State × Value) :=
  match mapGet st.pages p.pageId with
  | none => .error ("Page not found: " ++ p.pageId)
  | some _ =>
    match ext.content with
    | .error e => .error e
    | .ok s => .ok (st, .str s)

def getUrl (ext : ExtBehavior) (st : State) (p : Params) :
    Except String (State × Value) :=
  match mapGet st.pages p.pageId with
  | none => .error ("Page not found: " ++ p.pageId)
  | some _ => .ok (st, .str ext.pageUrl)

def getTitle (ext : ExtBehavior) (st : State) (p : Params) :
    Except String (State × Value) :=
  match mapGet st.pages p.pageId with
  | none => .error ("Page not found: " ++ p.pageId)
  | some _ =>
    match ext.pageTitle with
    | .error e => .error e
    | .ok s => .ok (st, .str s)

def evaluate (ext : ExtBehavior) (st : State) (p : Params) :
    Except String (State × Value) :=
  match mapGet st.pages p.pageId with
  | none => .error ("Page not found: " ++ p.pageId)
  | some _ =>
    match ext.evalResult with
    | .error e => .error e
    | .ok v => .ok (st, v)

def waitForSelector (ext : ExtBehavior) (st : State) (p : Params) :
    Except String (State × Value) :=
  match mapGet st.pages p.pageId with
  | none => .error ("Page not found: " ++ p.pageId)
  | some _ =>
    match ext.waitForSel with
    | .error e => .error e
    | .ok _ => .ok (st, .null)

def closePage (ext : ExtBehavior) (st : State) (p : Params) :
    Except String (State × Value) :=
  match mapGet st.pages p.pageId with
  | some _ =>
    match ext.pageClose with
    | .error e => .error e
    | .ok _ =>
      match ext.contextClose with
      | .error e => .error e
      | .ok _ => .ok ({ st with pages := mapDelete st.pages p.pageId }, .null)
  | none => .ok (st, .null)

def goBack (ext : ExtBehavior) (st : State) (p : Params) :
    Except String (State × Value) :=
  match mapGet st.pages p.pageId with
  | none => .error ("Page not found: " ++ p.pageId)
  | some _ =>
    match ext.goBackCall with
    | .error e => .error e
    | .ok _ => .ok (st, .null)

def goForward (ext : ExtBehavior) (st : State) (p : Params) :
    Except String (State × Value) :=
  match mapGet st.pages p.pageId with
  | none => .error ("Page not found: " ++ p.pageId)
  | some _ =>
    match ext.goForwardCall with
    | .error e => .error e
    | .ok _ => .ok (st, .null)

def reload (ext : ExtBehavior) (st : State) (p : Params) :
    Except String (State × Value) :=
  match mapGet st.pages p.pageId with
  | none => .error ("Page not found: " ++ p.pageId)
  | some _ =>
    match ext.reloadCall with
    | .error e => .error e
    | .ok _ => .ok (st, .null)

def scroll (ext : ExtBehavior) (st : State) (p : Params) :
    Except String (State × Value) :=
  match mapGet st.pages p.pageId with
  | none => .error ("Page not found: " ++ p.pageId)
  | some _ =>
    match ext.scrollEval with
    | .error e => .error e
    | .ok _ => .ok (st, .null)

/-- `getDomTree`: resolves the page, reads viewport/scroll data, evaluates the
collection callback over the candidate elements, and assembles the snapshot.
`ext.scrollInfo.dpr = 0` falls back to `1` (the `|| 1` in the source); the
`|| 0` on the scroll offsets is the identity on numbers and is not repeated
here. -/
def getDomTree (ext : ExtBehavior) (st : State) (p : Params) :
    Except String (State × Value) :=
  match mapGet st.pages p.pageId with
  | none => .error ("Page not found: " ++ p.pageId)
  | some _ =>
    let viewport := ext.viewportSize.getD (1280, 720)
    match ext.scrollInfo with
    | .error e => .error e
    | .ok si =>
      match ext.domElements with
      | .error e => .error e
      | .ok els =>
        match ext.pageTitle with
        | .error e => .error e
        | .ok t =>
          let nodes := collectNodes ext.winDims 0 els
          .ok (st, .snap
            { roots := (nodes.filter (fun n => n.parent_id.isNone)).map (fun n => n.id)
              nodes := nodes.map (fun n => (n.id, n))
              viewport :=
                { width := viewport.1, height := viewport.2
                  device_pixel_ratio := if si.dpr = 0 then 1 else si.dpr
                  scroll_x := si.x, scroll_y := si.y }
              timestamp := ext.now
              url := ext.pageUrl
              title := t })

def elementAt (ext : ExtBehavior) (st : State) (p : Params) :
    Except String (State × Value) :=
  match mapGet st.pages p.pageId with
  | none => .error ("Page not found: " ++ p.pageId)
  | some _ =>
    match ext.elementAtResult with
    | .error e => .error e
    | .ok v => .ok (st, v)

/-! ### Dispatcher and transport loop -/

/-- The outcome of dispatching one request: a response together with the state
after the request, or process exit (`shutdown` calls `process.exit(0)`). -/
inductive DispatchResult where
  | respond (st : State) (resp : Response)
  | exited
  deriving DecidableEq, Repr

/-- The dispatcher's uniform success/error wrapping (`return {id, result}` on
the normal path, the `catch` clause otherwise).  An error never carries a new
state: in the source no registry mutation precedes a throw. -/
def wrap (i : Int) (st : State) (r : Except String (State × Value)) :
    DispatchResult :=
  match r with
  | .ok (st2, v) => .respond st2 { id := i, outcome := .result v }
  | .error m => .respond st { id := i, outcome := .error { message := m, code := -1 } }

/-- `handleRequest`: the method switch.  The `Unknown method` throw of the
default branch is caught by the same wrapper, so it is fed to `wrap` as an
error outcome. -/
def handleRequest (ext : ExtBehavior) (st : State) (req : Request) :
    DispatchResult :=
  if req.method = "ping" then
    .respond st { id := req.id, outcome := .result (.str "pong") }
  else if req.method = "shutdown" then .exited
  else if req.method = "launchBrowser" then
    wrap req.id st (launchBrowser ext st req.params)
  else if req.method = "connectBrowser" then
    wrap req.id st (connectBrowser ext st req.params)
  else if req.method = "closeBrowser" then
    wrap req.id st (closeBrowser ext st req.params)
  else if req.method = "newPage" then wrap req.id st (newPage ext st req.params)
  else if req.method = "navigate" then wrap req.id st (navigate ext st req.params)
  else if req.method = "click" then wrap req.id st (click ext st req.params)
  else if req.method = "clickSelector" then
    wrap req.id st (clickSelector ext st req.params)
  else if req.method = "typeText" then wrap req.id st (typeText ext st req.params)
  else if req.method = "fill" then wrap req.id st (fill ext st req.params)
  else if req.method = "pressKey" then wrap req.id st (pressKey ext st req.params)
  else if req.method = "screenshot" then
    wrap req.id st (screenshot ext st req.params)
  else if req.method = "getContent" then
    wrap req.id st (getContent ext st req.params)
  else if req.method = "getUrl" then wrap req.id st (getUrl ext st req.params)
  else if req.method = "getTitle" then wrap req.id st (getTitle ext st req.params)
  else if req.method = "evaluate" then wrap req.id st (evaluate ext st req.params)
  else if req.method = "waitForSelector" then
    wrap req.id st (waitForSelector ext st req.params)
  else if req.method = "closePage" then wrap req.id st (closePage ext st req.params)
  else if req.method = "goBack" then wrap req.id st (goBack ext st req.params)
  else if req.method = "goForward" then wrap req.id st (goForward ext st req.params)
  else if req.method = "reload" then wrap req.id st (reload ext st req.params)
  else if req.method = "scroll" then wrap req.id st (scroll ext st req.params)
  else if req.method = "getDomTree" then
    wrap req.id st (getDomTree ext st req.params)
  else if req.method = "elementAt" then
    wrap req.id st (elementAt ext st req.params)
  else
    wrap req.id st (.error ("Unknown method: " ++ req.method))

/-- The method names the switch recognizes. -/
def knownMethods : List String :=
  ["ping", "shutdown", "launchBrowser", "connectBrowser", "closeBrowser",
   "newPage", "navigate", "click", "clickSelector", "typeText", "fill",
   "pressKey", "screenshot", "getContent", "getUrl", "getTitle", "evaluate",
   "waitForSelector", "closePage", "goBack", "goForward", "reload", "scroll",
   "getDomTree", "elementAt"]

/-- The action/inspection methods that resolve a page handle first. -/
def pageMethods : List String :=
  ["navigate", "click", "clickSelector", "typeText", "fill", "pressKey",
   "scroll", "goBack", "goForward", "reload", "waitForSelector", "screenshot",
   "getContent", "getUrl", "getTitle", "evaluate", "getDomTree", "elementAt"]

/-- One inbound line of the transport: either it parses to a request, or
`JSON.parse` threw with message `msg`. -/
inductive Line where
  | request (req : Request)
  | malformed (msg : String)
  deriving DecidableEq, Repr

/-- The `rl.on('line')` handler: parse, dispatch, emit exactly one response;
a parse fault yields the sentinel response `{id: 0, error: {message, code: -1}}`
and the loop keeps reading. -/
def processLine (ext : ExtBehavior) (st : State) (line : Line) : DispatchResult :=
  match line with
  | .request req => handleRequest ext st req
  | .malformed msg =>
    .respond st { id := 0, outcome := .error { message := msg, code := -1 } }

/-- Runs a sequence of requests, each under its own external-oracle behavior,
threading the state and collecting the emitted responses; a process exit ends
the run. -/
def run : State → List (Request × ExtBehavior) → State × List Response
  | st, [] => (st, [])
  | st, (req, ext) :: rest =>
    match handleRequest ext st req with
    | .respond st2 r => ((run st2 rest).1, r :: (run st2 rest).2)
    | .exited => (st, [])

/-- The handle strings returned by the successful responses of a run. -/
def successHandles (rs : List Response) : List String :=
  rs.filterMap fun r =>
    match r.outcome with
    | .result (.str s) => some s
    | _ => none

/-! ### Helper lemmas about the dispatcher -/

theorem wrap_error_state (i : Int) (st : State) (x : Except String (State × Value))
    (st2 : State) (r : Response) (e : ErrorObj)
    (hr : wrap i st x = .respond st2 r) (ho : r.outcome = .error e) : st2 = st := by
  cases x with
  | ok p =>
    obtain ⟨st3, v⟩ := p
    injection hr with h1 h2
    subst h2
    simp at ho
  | error m =>
    injection hr with h1 h2
    exact h1.symm

theorem wrap_error_code (i : Int) (st : State) (x : Except String (State × Value))
    (st2 : State) (r : Response) (e : ErrorObj)
    (hr : wrap i st x = .respond st2 r) (ho : r.outcome = .error e) : e.code = -1 := by
  cases x with
  | ok p =>
    obtain ⟨st3, v⟩ := p
    injection hr with h1 h2
    subst h2
    simp at ho
  | error m =>
    injection hr with h1 h2
    subst h2
    simp only [] at ho
    injection ho with h3
    rw [← h3]

theorem wrap_ne_exited (i : Int) (st : State) (x : Except String (State × Value)) :
    wrap i st x ≠ .exited := by
  cases x with
  | ok p => obtain ⟨st3, v⟩ := p; simp [wrap]
  | error m => simp [wrap]

/-! ### Helper lemmas about element detection -/

theorem collectNodes_mem (win : WinDims) :
    ∀ (els : List Element) (i : Nat) (n : NodeInfo), n ∈ collectNodes win i els →
      (∃ j el, el ∈ els ∧ n = getElementInfo win j el) ∧ n.is_visible = true := by
  intro els
  induction els with
  | nil =>
    intro i n h
    simp [collectNodes] at h
  | cons el rest ih =>
    intro i n h
    simp only [collectNodes] at h
    by_cases hv : (getElementInfo win i el).is_visible = true
    · rw [if_pos hv] at h
      rcases List.mem_cons.mp h with rfl | hmem
      · exact ⟨⟨i, el, List.mem_cons_self el rest, rfl⟩, hv⟩
      · obtain ⟨⟨j, el2, hin, heq⟩, hvis⟩ := ih (i + 1) n hmem
        exact ⟨⟨j, el2, List.mem_cons_of_mem el hin, heq⟩, hvis⟩
    · rw [if_neg hv] at h
      obtain ⟨⟨j, el2, hin, heq⟩, hvis⟩ := ih (i + 1) n h
      exact ⟨⟨j, el2, List.mem_cons_of_mem el hin, heq⟩, hvis⟩

theorem getElementInfo_interactive_iff (win : WinDims) (j : Nat) (el : Element) :
    (getElementInfo win j el).is_interactive = true
      ↔ (getElementInfo win j el).clickability_score > 0.3 := by
  simp [getElementInfo]

theorem wrap_result_inv (i : Int) (st : State) (x : Except String (State × Value))
    (st2 : State) (r : Response) (v : Value)
    (hr : wrap i st x = .respond st2 r) (ho : r.outcome = .result v) :
    x = .ok (st2, v) := by
  cases x with
  | ok p =>
    obtain ⟨st3, v2⟩ := p
    injection hr with h1 h2
    subst h1
    subst h2
    simp only [] at ho
    injection ho with h3
    rw [h3]
  | error m =>
    injection hr with h1 h2
    subst h2
    simp at ho

theorem getDomTree_snap (ext : ExtBehavior) (st : State) (prm : Params)
    (st2 : State) (d : DomSnapshot)
    (h : getDomTree ext st prm = .ok (st2, .snap d)) :
    ∃ els, ext.domElements = .ok els
      ∧ d.nodes = (collectNodes ext.winDims 0 els).map (fun n => (n.id, n)) := by
  unfold getDomTree at h
  rcases hpg : mapGet st.pages prm.pageId with _ | pe <;> rw [hpg] at h
  · exact absurd h (by simp)
  · rcases hsi : ext.scrollInfo with e | si <;> rw [hsi] at h
    · exact absurd h (by simp)
    · rcases hde : ext.domElements with e | els <;> rw [hde] at h
      · exact absurd h (by simp)
      · rcases hpt : ext.pageTitle with e | t <;> rw [hpt] at h
        · exact absurd h (by simp)
        · refine ⟨els, rfl, ?_⟩
          have h2 := Except.ok.inj h
          have h3 := congrArg Prod.snd h2
          have h4 := Value.snap.inj h3
          rw [← h4]

/-! ### Concrete inputs used by the witnesses -/

/-- A plain, non-interactive but visible element (a bare `div`). -/
def elPlain : Element :=
  { tagName := "div", role := none, cursor := "auto", hasHref := false
    hasOnclick := false, hasOnmousedown := false, hasOnmouseup := false
    hasOntouchstart := false, tabindexAttr := none, typeAttr := none
    isContentEditable := false, rect := { x := 0, y := 0, width := 10, height := 10 }
    display := "block", visibility := "visible", opacity := "1", tabIndexProp := -1 }

/-- A visible button with several firing signals. -/
def elButton : Element :=
  { tagName := "BUTTON", role := some "button", cursor := "pointer", hasHref := false
    hasOnclick := true, hasOnmousedown := false, hasOnmouseup := false
    hasOntouchstart := false, tabindexAttr := some (some 0), typeAttr := none
    isContentEditable := false, rect := { x := 0, y := 0, width := 100, height := 30 }
    display := "block", visibility := "visible", opacity := "1", tabIndexProp := 0 }

/-- A link that is hidden (`display: none`). -/
def elHidden : Element :=
  { tagName := "a", role := none, cursor := "pointer", hasHref := true
    hasOnclick := false, hasOnmousedown := false, hasOnmouseup := false
    hasOntouchstart := false, tabindexAttr := none, typeAttr := none
    isContentEditable := false, rect := { x := 0, y := 0, width := 50, height := 20 }
    display := "none", visibility := "visible", opacity := "1", tabIndexProp := 0 }

/-- Empty parameters object. -/
def pEmpty : Params := { browserId := "", pageId := "", endpoint := "" }

/-- A state with one registered browser and one registered page. -/
def stPage : State :=
  { browsers := [("browser_1", ())]
    pages := [("page_2", { browserId := "browser_1" })]
    idCounter := 3 }

/-- Oracle whose page evaluation yields one visible button and one hidden link. -/
def extDom : ExtBehavior := { extOk with domElements := .ok [elButton, elHidden] }

/-- The node list detected over `elButton` and `elHidden`. -/
def nodesDom : List NodeInfo := collectNodes extOk.winDims 0 [elButton, elHidden]

/-- The snapshot `getDomTree` assembles over `extDom` and `stPage`. -/
def snapDom : DomSnapshot :=
  { roots := (nodesDom.filter (fun n => n.parent_id.isNone)).map (fun n => n.id)
    nodes := nodesDom.map (fun n => (n.id, n))
    viewport :=
      { width := 1280, height := 720, device_pixel_ratio := 1
        scroll_x := 0, scroll_y := 0 }
    timestamp := 0
    url := ""
    title := "" }

/-- A `getDomTree` request against the registered page of `stPage`. -/
def reqDom : Request :=
  { id := 7, method := "getDomTree", params := { pEmpty with pageId := "page_2" } }

/-! ### Handle-generation invariant for traces -/

/-- A handle rendered from counter value `n`, of either kind. -/
def counterHandle (n : Nat) (h : String) : Prop :=
  h = "browser_" ++ decRepr n ∨ h = "page_" ++ decRepr n

theorem counterHandle_ne (m n : Nat) (h1 h2 : String) (hmn : m ≠ n)
    (hc1 : counterHandle m h1) (hc2 : counterHandle n h2) : h1 ≠ h2 := by
  rcases hc1 with rfl | rfl <;> rcases hc2 with rfl | rfl
  · exact fun h => hmn (browser_handle_inj m n h)
  · exact browser_handle_ne_page_handle m n
  · exact fun h => browser_handle_ne_page_handle n m h.symm
  · exact fun h => hmn (page_handle_inj m n h)

theorem step_shape (ext : ExtBehavior) (st : State) (req : Request)
    (hm : req.method = "launchBrowser" ∨ req.method = "connectBrowser"
      ∨ req.method = "newPage") :
    (∃ e, handleRequest ext st req
        = .respond st { id := req.id, outcome := .error e })
    ∨ ∃ st2 hdl, handleRequest ext st req
          = .respond st2 { id := req.id, outcome := .result (.str hdl) }
        ∧ st2.idCounter = st.idCounter + 1 ∧ counterHandle st.idCounter hdl := by
  obtain ⟨i, m, prm⟩ := req
  simp only [] at hm
  rcases hm with rfl | rfl | rfl
  · rcases hl : ext.launch with e | u
    · exact Or.inl ⟨{ message := e, code := -1 },
        by simp [handleRequest, launchBrowser, hl, wrap]⟩
    · refine Or.inr ⟨{ st with
          idCounter := st.idCounter + 1,
          browsers := mapSet st.browsers ("browser_" ++ decRepr st.idCounter) () },
        "browser_" ++ decRepr st.idCounter, ?_, rfl, Or.inl rfl⟩
      simp [handleRequest, launchBrowser, hl, wrap]
  · rcases hl : ext.connectOverCDP with e | u
    · exact Or.inl ⟨{ message := e, code := -1 },
        by simp [handleRequest, connectBrowser, hl, wrap]⟩
    · refine Or.inr ⟨{ st with
          idCounter := st.idCounter + 1,
          browsers := mapSet st.browsers ("browser_" ++ decRepr st.idCounter) () },
        "browser_" ++ decRepr st.idCounter, ?_, rfl, Or.inl rfl⟩
      simp [handleRequest, connectBrowser, hl, wrap]
  · rcases hb : mapGet st.browsers prm.browserId with _ | u
    · exact Or.inl ⟨{ message := "Browser not found: " ++ prm.browserId, code := -1 },
        by simp [handleRequest, newPage, hb, wrap]⟩
    · rcases hc : ext.newContext with e | u2
      · exact Or.inl ⟨{ message := e, code := -1 },
          by simp [handleRequest, newPage, hb, hc, wrap]⟩
      · rcases hp : ext.contextNewPage with e | u3
        · exact Or.inl ⟨{ message := e, code := -1 },
            by simp [handleRequest, newPage, hb, hc, hp, wrap]⟩
        · refine Or.inr ⟨{ st with
              idCounter := st.idCounter + 1,
              pages := mapSet st.pages ("page_" ++ decRepr st.idCounter)
                { browserId := prm.browserId } },
            "page_" ++ decRepr st.idCounter, ?_, rfl, Or.inr rfl⟩
          simp [handleRequest, newPage, hb, hc, hp, wrap]

theorem run_cons (st : State) (req : Request) (ext : ExtBehavior)
    (rest : List (Request × ExtBehavior)) (st2 : State) (r : Response)
    (hr : handleRequest ext st req = .respond st2 r) :
    run st ((req, ext) :: rest) = ((run st2 rest).1, r :: (run st2 rest).2) := by
  simp [run, hr]

theorem successHandles_cons_error (i : Int) (e : ErrorObj) (rs : List Response) :
    successHandles ({ id := i, outcome := .error e } :: rs) = successHandles rs := by
  simp [successHandles]

theorem successHandles_cons_str (i : Int) (s : String) (rs : List Response) :
    successHandles ({ id := i, outcome := .result (.str s) } :: rs)
      = s :: successHandles rs := by
  simp [successHandles]

theorem run_inv :
    ∀ (tr : List (Request × ExtBehavior)) (st : State),
    (∀ p ∈ tr, p.1.method = "launchBrowser" ∨ p.1.method = "connectBrowser"
      ∨ p.1.method = "newPage") →
    (∀ h ∈ successHandles (run st tr).2, ∃ n, st.idCounter ≤ n ∧ counterHandle n h)
    ∧ List.Pairwise (fun a b => a ≠ b) (successHandles (run st tr).2) := by
  intro tr
  induction tr with
  | nil =>
    intro st hm
    constructor
    · intro h hh
      simp [run, successHandles] at hh
    · simp [run, successHandles]
  | cons p rest ih =>
    obtain ⟨req, ext⟩ := p
    intro st hm
    have hm0 := hm (req, ext) (List.mem_cons_self _ _)
    have hmrest : ∀ q ∈ rest, q.1.method = "launchBrowser"
        ∨ q.1.method = "connectBrowser" ∨ q.1.method = "newPage" :=
      fun q hq => hm q (List.mem_cons_of_mem _ hq)
    rcases step_shape ext st req hm0 with ⟨e, hr⟩ | ⟨st2, hdl, hr, hinc, hch⟩
    · rw [run_cons st req ext rest st { id := req.id, outcome := .error e } hr,
        successHandles_cons_error]
      exact ih st hmrest
    · rw [run_cons st req ext rest st2
        { id := req.id, outcome := .result (.str hdl) } hr,
        successHandles_cons_str]
      obtain ⟨ih1, ih2⟩ := ih st2 hmrest
      constructor
      · intro h hh
        rcases List.mem_cons.mp hh with rfl | hmem
        · exact ⟨st.idCounter, le_rfl, hch⟩
        · obtain ⟨n, hn, hcn⟩ := ih1 h hmem
          exact ⟨n, by omega, hcn⟩
      · refine List.Pairwise.cons ?_ ih2
        intro h2 hmem
        obtain ⟨n, hn, hcn⟩ := ih1 h2 hmem
        exact counterHandle_ne st.idCounter n hdl h2 (by omega) hch hcn

/-! ### Requests and oracles used by the witnesses -/

def reqLaunch : Request := { id := 1, method := "launchBrowser", params := pEmpty }

def reqConnect : Request := { id := 2, method := "connectBrowser", params := pEmpty }

def reqNewPage : Request :=
  { id := 3, method := "newPage", params := { pEmpty with browserId := "browser_1" } }

/-- A launch, an attach, and a page-open interleaved in one trace. -/
def trThree : List (Request × ExtBehavior) :=
  [(reqLaunch, extOk), (reqConnect, extOk), (reqNewPage, extOk)]

def reqCloseB : Request :=
  { id := 4, method := "closeBrowser", params := { pEmpty with browserId := "browser_1" } }

def reqCloseMissing : Request :=
  { id := 5, method := "closeBrowser", params := { pEmpty with browserId := "browser_9" } }

def reqClosePageMissing : Request :=
  { id := 10, method := "closePage", params := { pEmpty with pageId := "page_9" } }

def reqNavMissing : Request :=
  { id := 6, method := "navigate", params := { pEmpty with pageId := "page_9" } }

def reqBogus : Request := { id := 8, method := "frobnicate", params := pEmpty }

def reqPing : Request := { id := 9, method := "ping", params := pEmpty }

/-- Oracle whose browser launch fails. -/
def extLaunchFail : ExtBehavior := { extOk with launch := .error "boom" }

/-! ### The claims -/

/-- C1: the clickability score computed by `calculateClickability` is the sum
of the weights of the firing signals (native tag 0.30, clickable ARIA role
0.20, cursor pointer 0.15, href 0.20, first matching inline event-handler
attribute 0.15, non-negative tabindex 0.10, clickable input type 0.15,
content-editable 0.20), each contributing at most once, capped at 1.0; hence
the score is monotone in the signal set and never exceeds 1.0. -/
theorem clickability_sum_capped_monotone :
    (∀ el : Element,
      (calculateClickability el).score = min (signalWeightSum (signalsOf el)) 1)
    ∧ (∀ e1 e2 : Element, signalsLe (signalsOf e1) (signalsOf e2) →
        (calculateClickability e1).score ≤ (calculateClickability e2).score)
    ∧ ∀ el : Element, (calculateClickability el).score ≤ 1 := by
  refine ⟨calculateClickability_score_eq, fun e1 e2 h => ?_, fun el => ?_⟩
  · rw [calculateClickability_score_eq, calculateClickability_score_eq]
    exact min_le_min (signalWeightSum_mono _ _ h) le_rfl
  · rw [calculateClickability_score_eq]
    exact min_le_right _ _

/-- Witness for C1: a bare `div` fires a subset of the signals of a rich
button, and its score is accordingly no larger. -/
theorem clickability_sum_capped_monotone_witness :
    signalsLe (signalsOf elPlain) (signalsOf elButton)
      ∧ (calculateClickability elPlain).score ≤ (calculateClickability elButton).score :=
  ⟨by decide, clickability_sum_capped_monotone.2.1 elPlain elButton (by decide)⟩

/-- C2: every node emitted in a DomSnapshot by `getDomTree` has
`is_interactive` true exactly when its `clickability_score` is strictly
greater than 0.3. -/
theorem getDomTree_is_interactive_iff (ext : ExtBehavior) (st st2 : State)
    (req : Request) (d : DomSnapshot)
    (hm : req.method = "getDomTree")
    (hr : handleRequest ext st req
        = .respond st2 { id := req.id, outcome := .result (.snap d) }) :
    ∀ p ∈ d.nodes, p.2.is_interactive = true ↔ p.2.clickability_score > 0.3 := by
  obtain ⟨i, m, prm⟩ := req
  cases hm
  simp only [handleRequest, String.reduceEq, reduceIte] at hr
  have hok := wrap_result_inv i st (getDomTree ext st prm) st2 _ _ hr rfl
  obtain ⟨els, hde, hnodes⟩ := getDomTree_snap ext st prm st2 d hok
  intro p hp
  rw [hnodes] at hp
  obtain ⟨n, hn, rfl⟩ := List.mem_map.mp hp
  obtain ⟨⟨j, el, hel, rfl⟩, hvis⟩ := collectNodes_mem ext.winDims els 0 n hn
  exact getElementInfo_interactive_iff ext.winDims j el

/-- Witness for C2: the snapshot over a concrete button and hidden link. -/
theorem getDomTree_is_interactive_iff_witness :
    handleRequest extDom stPage reqDom
        = .respond stPage { id := 7, outcome := .result (.snap snapDom) }
      ∧ ∀ p ∈ snapDom.nodes, p.2.is_interactive = true ↔ p.2.clickability_score > 0.3 :=
  ⟨by rfl,
    getDomTree_is_interactive_iff extDom stPage stPage reqDom snapDom rfl (by rfl)⟩

/-- C3: every node present in a DomSnapshot emitted by `getDomTree` has
`is_visible = true`, and a candidate element with zero width or height, or
display `none`, visibility `hidden`, or opacity `0`, always produces an
info record with `is_visible = false` (and so is never pushed onto the
node table). -/
theorem getDomTree_only_visible (ext : ExtBehavior) (st st2 : State)
    (req : Request) (d : DomSnapshot)
    (hm : req.method = "getDomTree")
    (hr : handleRequest ext st req
        = .respond st2 { id := req.id, outcome := .result (.snap d) }) :
    (∀ p ∈ d.nodes, p.2.is_visible = true)
    ∧ ∀ (win : WinDims) (j : Nat) (el : Element),
        (el.rect.width = 0 ∨ el.rect.height = 0 ∨ el.display = "none"
          ∨ el.visibility = "hidden" ∨ el.opacity = "0") →
        (getElementInfo win j el).is_visible = false := by
  obtain ⟨i, m, prm⟩ := req
  cases hm
  simp only [handleRequest, String.reduceEq, reduceIte] at hr
  have hok := wrap_result_inv i st (getDomTree ext st prm) st2 _ _ hr rfl
  obtain ⟨els, hde, hnodes⟩ := getDomTree_snap ext st prm st2 d hok
  constructor
  · intro p hp
    rw [hnodes] at hp
    obtain ⟨n, hn, rfl⟩ := List.mem_map.mp hp
    exact (collectNodes_mem ext.winDims els 0 n hn).2
  · intro win j el hcond
    rcases hcond with h0 | h0 | h0 | h0 | h0 <;> simp [getElementInfo, h0]

/-- Witness for C3: in the concrete snapshot, the hidden link is filtered out
and only visible nodes remain. -/
theorem getDomTree_only_visible_witness :
    handleRequest extDom stPage reqDom
        = .respond stPage { id := 7, outcome := .result (.snap snapDom) }
      ∧ ((∀ p ∈ snapDom.nodes, p.2.is_visible = true)
        ∧ ∀ (win : WinDims) (j : Nat) (el : Element),
            (el.rect.width = 0 ∨ el.rect.height = 0 ∨ el.display = "none"
              ∨ el.visibility = "hidden" ∨ el.opacity = "0") →
            (getElementInfo win j el).is_visible = false) :=
  ⟨by rfl,
    getDomTree_only_visible extDom stPage stPage reqDom snapDom rfl (by rfl)⟩

/-- C4: handles returned by successful `launchBrowser`, `connectBrowser` and
`newPage` calls are pairwise distinct over any trace, because all three draw
from the single shared counter (`run_inv` exhibits the distinct counter values
embedded in the handles, independently of the prefix). -/
theorem shared_counter_handles_distinct (tr : List (Request × ExtBehavior))
    (st : State)
    (hm : ∀ p ∈ tr, p.1.method = "launchBrowser" ∨ p.1.method = "connectBrowser"
      ∨ p.1.method = "newPage") :
    List.Pairwise (fun a b => a ≠ b) (successHandles (run st tr).2) :=
  (run_inv tr st hm).2

/-- Witness for C4: a launch, an attach and a page-open from the initial
state produce pairwise distinct handles. -/
theorem shared_counter_handles_distinct_witness :
    List.Pairwise (fun a b => a ≠ b) (successHandles (run initialState trThree).2) :=
  shared_counter_handles_distinct trThree initialState (by decide)

/-- C5: every action or inspection operation invoked with a page handle absent
from the registry responds with the error message `Page not found: <handle>`,
and `newPage` with an absent browser handle responds with
`Browser not found: <handle>` (so each message contains the respective literal
substring followed by the handle). -/
theorem unknown_handle_errors (ext : ExtBehavior) (st : State) (req : Request) :
    (req.method ∈ pageMethods → mapGet st.pages req.params.pageId = none →
      handleRequest ext st req = .respond st
        { id := req.id
          outcome := .error { message := "Page not found: " ++ req.params.pageId, code := -1 } })
    ∧ (req.method = "newPage" → mapGet st.browsers req.params.browserId = none →
      handleRequest ext st req = .respond st
        { id := req.id
          outcome := .error { message := "Browser not found: " ++ req.params.browserId, code := -1 } }) := by
  obtain ⟨i, m, prm⟩ := req
  constructor
  · intro hmem hpg
    simp only [pageMethods] at hmem
    fin_cases hmem <;>
      simp [handleRequest, navigate, click, clickSelector, typeText, fill,
        pressKey, scroll, goBack, goForward, reload, waitForSelector, screenshot,
        getContent, getUrl, getTitle, evaluate, getDomTree, elementAt, hpg, wrap]
  · intro hm hbg
    cases hm
    simp [handleRequest, newPage, hbg, wrap]

/-- Witness for C5: `navigate` against an unregistered page handle. -/
theorem unknown_handle_errors_witness :
    reqNavMissing.method ∈ pageMethods
      ∧ mapGet stPage.pages "page_9" = none
      ∧ handleRequest extOk stPage reqNavMissing = .respond stPage
        { id := 6
          outcome := .error { message := "Page not found: " ++ "page_9", code := -1 } } :=
  ⟨by decide, by decide,
    (unknown_handle_errors extOk stPage reqNavMissing).1 (by decide) (by decide)⟩

/-- C6: `closeBrowser` and `closePage` on a handle absent from the registry
succeed with result `null` and leave the state — in particular both registry
maps — exactly unchanged; since the resulting state is the argument state
itself, the same equation applies verbatim to an immediate second invocation
(idempotent no-op). -/
theorem close_missing_noop (ext : ExtBehavior) (st : State) (req : Request) :
    (req.method = "closeBrowser" → mapGet st.browsers req.params.browserId = none →
      handleRequest ext st req = .respond st { id := req.id, outcome := .result .null })
    ∧ (req.method = "closePage" → mapGet st.pages req.params.pageId = none →
      handleRequest ext st req = .respond st { id := req.id, outcome := .result .null }) := by
  obtain ⟨i, m, prm⟩ := req
  constructor <;> intro hm h0 <;> cases hm <;>
    simp [handleRequest, closeBrowser, closePage, h0, wrap]

/-- Witness for C6: closing the unregistered `browser_9` and `page_9` both
no-op successfully against `stPage`. -/
theorem close_missing_noop_witness :
    mapGet stPage.browsers "browser_9" = none
      ∧ mapGet stPage.pages "page_9" = none
      ∧ handleRequest extOk stPage reqCloseMissing
          = .respond stPage { id := 5, outcome := .result .null }
      ∧ handleRequest extOk stPage reqClosePageMissing
          = .respond stPage { id := 10, outcome := .result .null } :=
  ⟨by decide, by decide,
    (close_missing_noop extOk stPage reqCloseMissing).1 rfl (by decide),
    (close_missing_noop extOk stPage reqClosePageMissing).2 rfl (by decide)⟩

/-- Every branch of the dispatcher is either a `wrap` of an operation, the
`ping` fast path, or the `shutdown` exit. -/
theorem handleRequest_shapes (ext : ExtBehavior) (st : State) (req : Request) :
    (∃ x, handleRequest ext st req = wrap req.id st x)
    ∨ (req.method = "ping" ∧ handleRequest ext st req
        = .respond st { id := req.id, outcome := .result (.str "pong") })
    ∨ (req.method = "shutdown" ∧ handleRequest ext st req = .exited) := by
  unfold handleRequest
  by_cases h1 : req.method = "ping"
  · rw [if_pos h1]
    exact Or.inr (Or.inl ⟨h1, rfl⟩)
  rw [if_neg h1]
  by_cases h2 : req.method = "shutdown"
  · rw [if_pos h2]
    exact Or.inr (Or.inr ⟨h2, rfl⟩)
  rw [if_neg h2]
  by_cases h3 : req.method = "launchBrowser"
  · rw [if_pos h3]
    exact Or.inl ⟨_, rfl⟩
  rw [if_neg h3]
  by_cases h4 : req.method = "connectBrowser"
  · rw [if_pos h4]
    exact Or.inl ⟨_, rfl⟩
  rw [if_neg h4]
  by_cases h5 : req.method = "closeBrowser"
  · rw [if_pos h5]
    exact Or.inl ⟨_, rfl⟩
  rw [if_neg h5]
  by_cases h6 : req.method = "newPage"
  · rw [if_pos h6]
    exact Or.inl ⟨_, rfl⟩
  rw [if_neg h6]
  by_cases h7 : req.method = "navigate"
  · rw [if_pos h7]
    exact Or.inl ⟨_, rfl⟩
  rw [if_neg h7]
  by_cases h8 : req.method = "click"
  · rw [if_pos h8]
    exact Or.inl ⟨_, rfl⟩
  rw [if_neg h8]
  by_cases h9 : req.method = "clickSelector"
  · rw [if_pos h9]
    exact Or.inl ⟨_, rfl⟩
  rw [if_neg h9]
  by_cases h10 : req.method = "typeText"
  · rw [if_pos h10]
    exact Or.inl ⟨_, rfl⟩
  rw [if_neg h10]
  by_cases h11 : req.method = "fill"
  · rw [if_pos h11]
    exact Or.inl ⟨_, rfl⟩
  rw [if_neg h11]
  by_cases h12 : req.method = "pressKey"
  · rw [if_pos h12]
    exact Or.inl ⟨_, rfl⟩
  rw [if_neg h12]
  by_cases h13 : req.method = "screenshot"
  · rw [if_pos h13]
    exact Or.inl ⟨_, rfl⟩
  rw [if_neg h13]
  by_cases h14 : req.method = "getContent"
  · rw [if_pos h14]
    exact Or.inl ⟨_, rfl⟩
  rw [if_neg h14]
  by_cases h15 : req.method = "getUrl"
  · rw [if_pos h15]
    exact Or.inl ⟨_, rfl⟩
  rw [if_neg h15]
  by_cases h16 : req.method = "getTitle"
  · rw [if_pos h16]
    exact Or.inl ⟨_, rfl⟩
  rw [if_neg h16]
  by_cases h17 : req.method = "evaluate"
  · rw [if_pos h17]
    exact Or.inl ⟨_, rfl⟩
  rw [if_neg h17]
  by_cases h18 : req.method = "waitForSelector"
  · rw [if_pos h18]
    exact Or.inl ⟨_, rfl⟩
  rw [if_neg h18]
  by_cases h19 : req.method = "closePage"
  · rw [if_pos h19]
    exact Or.inl ⟨_, rfl⟩
  rw [if_neg h19]
  by_cases h20 : req.method = "goBack"
  · rw [if_pos h20]
    exact Or.inl ⟨_, rfl⟩
  rw [if_neg h20]
  by_cases h21 : req.method = "goForward"
  · rw [if_pos h21]
    exact Or.inl ⟨_, rfl⟩
  rw [if_neg h21]
  by_cases h22 : req.method = "reload"
  · rw [if_pos h22]
    exact Or.inl ⟨_, rfl⟩
  rw [if_neg h22]
  by_cases h23 : req.method = "scroll"
  · rw [if_pos h23]
    exact Or.inl ⟨_, rfl⟩
  rw [if_neg h23]
  by_cases h24 : req.method = "getDomTree"
  · rw [if_pos h24]
    exact Or.inl ⟨_, rfl⟩
  rw [if_neg h24]
  by_cases h25 : req.method = "elementAt"
  · rw [if_pos h25]
    exact Or.inl ⟨_, rfl⟩
  rw [if_neg h25]
  exact Or.inl ⟨_, rfl⟩

theorem handleRequest_error_code (ext : ExtBehavior) (st : State) (req : Request)
    (st2 : State) (r : Response) (e : ErrorObj)
    (hr : handleRequest ext st req = .respond st2 r) (ho : r.outcome = .error e) :
    e.code = -1 := by
  rcases handleRequest_shapes ext st req with ⟨x, hx⟩ | ⟨hping, hx⟩ | ⟨hshut, hx⟩
  · rw [hx] at hr
    exact wrap_error_code _ _ _ _ _ _ hr ho
  · rw [hx] at hr
    injection hr with h1 h2
    subst h2
    simp at ho
  · rw [hx] at hr
    exact DispatchResult.noConfusion hr

/-- C7: the transport emits exactly one response per inbound line except for a
successful shutdown: a malformed line yields the sentinel
`{id: 0, error: {message, code: -1}}` and the loop continues; an unrecognized
method yields `Unknown method: <method>`; every error response carries code
-1; and the only way a line produces no response is a `shutdown` request. -/
theorem transport_fault_containment :
    (∀ (ext : ExtBehavior) (st : State) (msg : String),
      processLine ext st (.malformed msg)
        = .respond st { id := 0, outcome := .error { message := msg, code := -1 } })
    ∧ (∀ (ext : ExtBehavior) (st : State) (req : Request),
        req.method ∉ knownMethods →
        handleRequest ext st req = .respond st
          { id := req.id
            outcome := .error { message := "Unknown method: " ++ req.method, code := -1 } })
    ∧ (∀ (ext : ExtBehavior) (st : State) (line : Line) (st2 : State)
        (r : Response) (e : ErrorObj),
        processLine ext st line = .respond st2 r → r.outcome = .error e →
        e.code = -1)
    ∧ ∀ (ext : ExtBehavior) (st : State) (line : Line),
        processLine ext st line = .exited →
        ∃ req, line = .request req ∧ req.method = "shutdown" := by
  refine ⟨fun ext st msg => rfl, ?_, ?_, ?_⟩
  · intro ext st req hm
    obtain ⟨i, m, prm⟩ := req
    simp only [knownMethods, List.mem_cons, List.not_mem_nil, or_false,
      not_or] at hm
    obtain ⟨h1, h2, h3, h4, h5, h6, h7, h8, h9, h10, h11, h12, h13, h14, h15,
      h16, h17, h18, h19, h20, h21, h22, h23, h24, h25⟩ := hm
    simp [handleRequest, wrap, h1, h2, h3, h4, h5, h6, h7, h8, h9, h10, h11,
      h12, h13, h14, h15, h16, h17, h18, h19, h20, h21, h22, h23, h24, h25]
  · intro ext st line st2 r e hl ho
    cases line with
    | request req => exact handleRequest_error_code ext st req st2 r e hl ho
    | malformed msg =>
      simp only [processLine] at hl
      injection hl with h1 h2
      subst h2
      simp only [] at ho
      injection ho with h3
      rw [← h3]
  · intro ext st line hl
    cases line with
    | malformed msg => exact DispatchResult.noConfusion hl
    | request req =>
      rcases handleRequest_shapes ext st req with ⟨x, hx⟩ | ⟨hping, hx⟩ | ⟨hshut, hx⟩
      · rw [show processLine ext st (.request req) = handleRequest ext st req
          from rfl, hx] at hl
        exact absurd hl (wrap_ne_exited _ _ _)
      · rw [show processLine ext st (.request req) = handleRequest ext st req
          from rfl, hx] at hl
        exact DispatchResult.noConfusion hl
      · exact ⟨req, rfl, hshut⟩

/-- Witness for C7: an unrecognized method name produces the
`Unknown method:` error response. -/
theorem transport_fault_containment_witness :
    ("frobnicate" : String) ∉ knownMethods
      ∧ handleRequest extOk stPage reqBogus = .respond stPage
        { id := 8
          outcome := .error { message := "Unknown method: " ++ "frobnicate", code := -1 } } :=
  ⟨by decide, transport_fault_containment.2.1 extOk stPage reqBogus (by decide)⟩

/-- C8: closing a registered browser removes exactly that entry from the
browsers map, leaves every other browser entry intact, and leaves the pages
map entirely unchanged — pages owned by the closed browser remain (dangling)
in the page table. -/
theorem closeBrowser_pages_untouched (ext : ExtBehavior) (st : State)
    (req : Request)
    (hm : req.method = "closeBrowser")
    (hb : (mapGet st.browsers req.params.browserId).isSome = true)
    (hc : ext.browserClose = .ok ()) :
    ∃ st2, handleRequest ext st req
        = .respond st2 { id := req.id, outcome := .result .null }
      ∧ st2.pages = st.pages
      ∧ st2.browsers = mapDelete st.browsers req.params.browserId
      ∧ (∀ b, b ≠ req.params.browserId →
          mapGet st2.browsers b = mapGet st.browsers b)
      ∧ ∀ pid pe, mapGet st.pages pid = some pe → mapGet st2.pages pid = some pe := by
  obtain ⟨i, m, prm⟩ := req
  cases hm
  rcases hsome : mapGet st.browsers prm.browserId with _ | u
  · rw [hsome] at hb
    simp at hb
  · refine ⟨{ st with browsers := mapDelete st.browsers prm.browserId },
      ?_, rfl, rfl, ?_, ?_⟩
    · simp [handleRequest, closeBrowser, hsome, hc, wrap]
    · intro b hbne
      exact mapGet_mapDelete_ne st.browsers prm.browserId b hbne
    · intro pid pe hpe
      exact hpe

/-- Witness for C8: closing `browser_1` in `stPage` leaves the page table,
with its entry owned by `browser_1`, unchanged. -/
theorem closeBrowser_pages_untouched_witness :
    (mapGet stPage.browsers "browser_1").isSome = true
      ∧ ∃ st2, handleRequest extOk stPage reqCloseB
          = .respond st2 { id := 4, outcome := .result .null }
        ∧ st2.pages = stPage.pages
        ∧ st2.browsers = mapDelete stPage.browsers "browser_1"
        ∧ (∀ b, b ≠ "browser_1" → mapGet st2.browsers b = mapGet stPage.browsers b)
        ∧ ∀ pid pe, mapGet stPage.pages pid = some pe →
            mapGet st2.pages pid = some pe :=
  ⟨by decide, closeBrowser_pages_untouched extOk stPage reqCloseB rfl (by decide) rfl⟩

/-- C9: whenever the dispatcher returns an error response, the state — in
particular both registry maps and the counter — is exactly as it was before
the request: every operation performs its registry mutation only after its
external calls have succeeded. -/
theorem error_leaves_registry (ext : ExtBehavior) (st : State) (req : Request)
    (st2 : State) (r : Response) (e : ErrorObj)
    (hr : handleRequest ext st req = .respond st2 r) (ho : r.outcome = .error e) :
    st2 = st := by
  rcases handleRequest_shapes ext st req with ⟨x, hx⟩ | ⟨hping, hx⟩ | ⟨hshut, hx⟩
  · rw [hx] at hr
    exact wrap_error_state _ _ _ _ _ _ hr ho
  · rw [hx] at hr
    injection hr with h1 h2
    exact h1.symm
  · rw [hx] at hr
    exact DispatchResult.noConfusion hr

/-- Witness for C9: a failing `chromium.launch` produces an error response and
the registry state is untouched. -/
theorem error_leaves_registry_witness :
    handleRequest extLaunchFail initialState reqLaunch
        = .respond initialState
          { id := 1
            outcome := .error { message := "boom", code := -1 } }
      ∧ initialState = initialState :=
  ⟨by rfl,
    error_leaves_registry extLaunchFail initialState reqLaunch initialState
      { id := 1, outcome := .error { message := "boom", code := -1 } }
      { message := "boom", code := -1 } (by rfl) rfl⟩

/-- C10: the dispatcher accepts the method `ping`, which for every request —
whatever its parameters — changes no state and responds `{id, result: "pong"}`. -/
theorem ping_returns_pong (ext : ExtBehavior) (st : State) (req : Request)
    (hm : req.method = "ping") :
    handleRequest ext st req
      = .respond st { id := req.id, outcome := .result (.str "pong") } := by
  obtain ⟨i, m, prm⟩ := req
  cases hm
  simp [handleRequest]

/-- Witness for C10: a concrete ping against a populated registry. -/
theorem ping_returns_pong_witness :
    reqPing.method = "ping"
      ∧ handleRequest extOk stPage reqPing
        = .respond stPage { id := 9, outcome := .result (.str "pong") } :=
  ⟨rfl, ping_returns_pong extOk stPage reqPing rfl⟩

end Bridge
